import Mathlib

/-!
Verification development for `scripts/tmux-api.py`: a minimal HTTP control
surface over tmux session management (list, create, destroy named sessions).

The external tmux binary is modelled as a state-threaded oracle
`ExtOracle σ = σ → List String → Option String × σ`: invoking an argv either
succeeds with captured stdout (`some out`) or exits non-zero
(`none`, Python's `subprocess.CalledProcessError`).  Every helper returns
the produced value together with the successor oracle state and the list
of argvs it invoked, so that "the external process is not invoked" is a
statement about the trace.

Python string primitives used by the script (`str.strip`, `str.splitlines`,
`str.split`, `str.isdigit`, `str()` coercion, `re.match`, `urllib.parse.urlparse`,
`json.dumps`) are embedded below as executable Lean functions over
`List Char`, which matches Python's code-point string semantics.
-/

/-! ## Python character classes and string primitives -/

/-- The character class `[A-Za-z0-9_.-]` of `SESSION_RE` (tmux-api.py line 10). -/
def isSessionChar (c : Char) : Bool :=
  (65 ≤ c.toNat && c.toNat ≤ 90) || (97 ≤ c.toNat && c.toNat ≤ 122) ||
  (48 ≤ c.toNat && c.toNat ≤ 57) || c.toNat == 95 || c.toNat == 46 || c.toNat == 45

/-- Characters Python's `str.strip()` / `str.isspace()` treat as whitespace. -/
def isPySpace (c : Char) : Bool :=
  (9 ≤ c.toNat && c.toNat ≤ 13) || c.toNat == 32 ||
  (28 ≤ c.toNat && c.toNat ≤ 31) || c.toNat == 0x85 || c.toNat == 0xa0 ||
  c.toNat == 0x1680 || (0x2000 ≤ c.toNat && c.toNat ≤ 0x200a) ||
  c.toNat == 0x2028 || c.toNat == 0x2029 ||
  c.toNat == 0x202f || c.toNat == 0x205f || c.toNat == 0x3000

/-- Python `s.strip()`: remove leading and trailing whitespace. -/
def pyStrip (s : String) : String :=
  ⟨((s.data.dropWhile isPySpace).reverse.dropWhile isPySpace).reverse⟩

/-- Python `re.match(SESSION_RE, s)` is not `none`, for
`SESSION_RE = ^[A-Za-z0-9_.-]+$`.  Python's `$` matches at the end of the
string or just before one final newline, so `"abc\n"` is accepted. -/
def sessionReMatch (s : String) : Bool :=
  let core := if s.data.getLast? == some '\n' then s.data.dropLast else s.data
  !core.isEmpty && core.all isSessionChar

/-- Full anchored match of `[A-Za-z0-9_.-]+` with no newline allowance:
the reading of the spec's invariant "name matches `^[A-Za-z0-9_.-]+$`". -/
def strictSessionMatch (s : String) : Bool :=
  !s.data.isEmpty && s.data.all isSessionChar

/-- Python `s.split(sep)` for a single-character separator, on code points. -/
def splitOnCharAux (sep : Char) : List Char → List Char → List (List Char)
  | [], acc => [acc.reverse]
  | c :: rest, acc =>
    if c = sep then acc.reverse :: splitOnCharAux sep rest []
    else splitOnCharAux sep rest (c :: acc)

/-- Python `s.split(sep)` for a one-character `sep` (`"".split(sep) = [""]`). -/
def pySplitChar (s : String) (sep : Char) : List String :=
  (splitOnCharAux sep s.data []).map String.mk

/-- Is `c` one of Python's `str.splitlines` line boundaries. -/
def isPyLineBreak (c : Char) : Bool :=
  c.toNat == 10 || c.toNat == 13 || c.toNat == 11 || c.toNat == 12 ||
  c.toNat == 28 || c.toNat == 29 || c.toNat == 30 || c.toNat == 0x85 ||
  c.toNat == 0x2028 || c.toNat == 0x2029

/-- Worker for `pySplitlines`; `\r\n` counts as a single boundary. -/
def splitlinesAux : List Char → List Char → List (List Char)
  | [], acc => if acc.isEmpty then [] else [acc.reverse]
  | '\r' :: '\n' :: rest, acc => acc.reverse :: splitlinesAux rest []
  | c :: rest, acc =>
    if isPyLineBreak c then acc.reverse :: splitlinesAux rest []
    else splitlinesAux rest (c :: acc)

/-- Python `s.splitlines()` (`"".splitlines() = []`, no trailing empty line). -/
def pySplitlines (s : String) : List String :=
  (splitlinesAux s.data []).map String.mk

/-- Python `s.isdigit()` restricted to the ASCII digit range.  (Python also
accepts some non-ASCII digit code points, which tmux's numeric fields never
produce; that Unicode table is out of scope of this model.) -/
def pyIsdigit (s : String) : Bool :=
  !s.data.isEmpty && s.data.all (fun c => 48 ≤ c.toNat && c.toNat ≤ 57)

/-- Python `int(s)` on a string of ASCII decimal digits. -/
def digitsToNat (s : String) : Nat :=
  s.data.foldl (fun a c => 10 * a + (c.toNat - 48)) 0

/-! ## Python values as produced by `json.loads`, and `str()` coercion -/

/-- A Python value in the image of `json.loads`, minus floats (no claim
involves a float body, and floating point is out of scope). -/
inductive PyVal where
  | pstr : String → PyVal
  | pint : Int → PyVal
  | pbool : Bool → PyVal
  | pnone : PyVal
  | plist : List PyVal → PyVal
  | pdict : List (String × PyVal) → PyVal

/-- Hex digit character (lowercase), as used by Python escape sequences. -/
def hexDigit (n : Nat) : Char :=
  if n < 10 then Char.ofNat (48 + n) else Char.ofNat (87 + n)

/-- Two lowercase hex digits. -/
def hex2 (n : Nat) : String := ⟨[hexDigit (n / 16 % 16), hexDigit (n % 16)]⟩

/-- Four lowercase hex digits. -/
def hex4 (n : Nat) : String :=
  ⟨[hexDigit (n / 4096 % 16), hexDigit (n / 256 % 16), hexDigit (n / 16 % 16),
    hexDigit (n % 16)]⟩

/-- One character of Python `repr` of a string, with quote character `q`.
(Printable non-ASCII characters are kept literal; the Unicode printability
table for the remaining non-ASCII control characters is out of scope.) -/
def pyReprStrChar (q : Char) (c : Char) : String :=
  if c = '\\' then "\\\\"
  else if c = q then "\\" ++ ⟨[q]⟩
  else if c = '\n' then "\\n"
  else if c = '\r' then "\\r"
  else if c = '\t' then "\\t"
  else if c.toNat < 32 || c.toNat == 127 then "\\x" ++ hex2 c.toNat
  else ⟨[c]⟩

/-- Python `repr` of a string: single quotes, or double quotes when the
string contains a single quote but no double quote. -/
def pyReprStr (s : String) : String :=
  let q : Char := if s.data.contains '\x27' && !s.data.contains '"' then '"' else '\x27'
  ⟨[q]⟩ ++ String.join (s.data.map (pyReprStrChar q)) ++ ⟨[q]⟩

mutual

/-- Python `repr` of a (JSON-shaped) value. -/
def pyRepr : PyVal → String
  | .pstr s => pyReprStr s
  | .pint n => toString n
  | .pbool b => if b then "True" else "False"
  | .pnone => "None"
  | .plist xs => "[" ++ String.intercalate ", " (pyReprList xs) ++ "]"
  | .pdict fs => "\x7b" ++ String.intercalate ", " (pyReprFields fs) ++ "\x7d"

/-- `repr` of each element of a list. -/
def pyReprList : List PyVal → List String
  | [] => []
  | x :: xs => pyRepr x :: pyReprList xs

/-- `repr` of each `key: value` pair of a dict. -/
def pyReprFields : List (String × PyVal) → List String
  | [] => []
  | (k, v) :: fs => (pyReprStr k ++ ": " ++ pyRepr v) :: pyReprFields fs

end

/-- Python `str(v)`: identity on strings, `repr` otherwise
(`str(123) = "123"`, `str(None) = "None"`, `str(True) = "True"`). -/
def pyStr : PyVal → String
  | .pstr s => s
  | v => pyRepr v

/-- First-occurrence association lookup (a Python dict decoded by
`json.loads` has unique keys). -/
def pyLookup : List (String × PyVal) → String → Option PyVal
  | [], _ => none
  | (k, v) :: fs, key => if k = key then some v else pyLookup fs key

/-- Python `data.get(key, default)`.  `none` models the `AttributeError`
raised when `data` is not a dict (e.g. the request body was a JSON array). -/
def PyVal.get : PyVal → String → PyVal → Option PyVal
  | .pdict fs, key, dflt => some ((pyLookup fs key).getD dflt)
  | _, _, _ => none

/-! ## JSON values and `json.dumps` -/

/-- A JSON value as the handler passes to `json.dumps` (only strings,
non-negative ints, booleans, arrays and objects occur). -/
inductive JVal where
  | jstr : String → JVal
  | jnat : Nat → JVal
  | jbool : Bool → JVal
  | jarr : List JVal → JVal
  | jobj : List (String × JVal) → JVal

/-- One character of a `json.dumps` string literal, with the default
`ensure_ascii=True`: non-ASCII and control characters become `\uXXXX`
(a surrogate pair above U+FFFF). -/
def jsonEscapeChar (c : Char) : String :=
  if c = '"' then "\\\""
  else if c = '\\' then "\\\\"
  else if c = '\n' then "\\n"
  else if c = '\t' then "\\t"
  else if c = '\r' then "\\r"
  else if c.toNat == 8 then "\\b"
  else if c.toNat == 12 then "\\f"
  else if c.toNat < 32 || 127 ≤ c.toNat then
    if c.toNat < 0x10000 then "\\u" ++ hex4 c.toNat
    else "\\u" ++ hex4 (0xd800 + (c.toNat - 0x10000) / 0x400) ++
         "\\u" ++ hex4 (0xdc00 + (c.toNat - 0x10000) % 0x400)
  else ⟨[c]⟩

/-- `json.dumps` of a string. -/
def jsonDumpStr (s : String) : String :=
  "\"" ++ String.join (s.data.map jsonEscapeChar) ++ "\""

mutual

/-- Python `json.dumps(v)` with default separators `", "` and `": "`. -/
def jsonDumps : JVal → String
  | .jstr s => jsonDumpStr s
  | .jnat n => toString n
  | .jbool b => if b then "true" else "false"
  | .jarr xs => "[" ++ String.intercalate ", " (jsonDumpsList xs) ++ "]"
  | .jobj fs => "\x7b" ++ String.intercalate ", " (jsonDumpsFields fs) ++ "\x7d"

/-- `json.dumps` of each element of an array. -/
def jsonDumpsList : List JVal → List String
  | [] => []
  | x :: xs => jsonDumps x :: jsonDumpsList xs

/-- `json.dumps` of each `"key": value` member of an object. -/
def jsonDumpsFields : List (String × JVal) → List String
  | [] => []
  | (k, v) :: fs => (jsonDumpStr k ++ ": " ++ jsonDumps v) :: jsonDumpsFields fs

end

/-- Number of bytes of the UTF-8 encoding of one code point. -/
def charUtf8Size (n : Nat) : Nat :=
  if n < 0x80 then 1 else if n < 0x800 then 2 else if n < 0x10000 then 3 else 4

/-- Byte length of `s.encode("utf-8")`. -/
def utf8Length (s : String) : Nat :=
  s.data.foldl (fun a c => a + charUtf8Size c.toNat) 0

/-! ## `urllib.parse.urlparse(url).path` -/

/-- Split at the first occurrence of `sep`: the part before it, and
(when `sep` occurs) the part after it. -/
def breakAtChar : List Char → Char → List Char × Option (List Char)
  | [], _ => ([], none)
  | c :: rest, sep =>
    if c = sep then ([], some rest)
    else
      let r := breakAtChar rest sep
      (c :: r.1, r.2)

/-- A WHATWG C0 control or space character (code point at most 0x20):
`urlsplit` strips these from the front of the URL before parsing. -/
def isC0ControlOrSpace (c : Char) : Bool := c.toNat ≤ 32

/-- One of the URL-unsafe characters tab, CR, LF, which `urlsplit`
removes from the whole URL (bpo-43882, all supported CPython). -/
def isUnsafeUrlChar (c : Char) : Bool :=
  c.toNat == 9 || c.toNat == 13 || c.toNat == 10

/-- Characters allowed in a URL scheme (`scheme_chars`). -/
def isSchemeChar (c : Char) : Bool :=
  c.isAlpha || c.isDigit || c == '+' || c == '-' || c == '.'

/-- Recognize a leading `scheme:` when the part before the first `:` is
nonempty, starts with an ASCII letter and consists of scheme characters;
returns the lowercased scheme (when one is found) and the remainder. -/
def splitScheme (cs : List Char) : Option (List Char) × List Char :=
  match breakAtChar cs ':' with
  | (pre, some rest) =>
    if !pre.isEmpty && (pre.headD ' ').isAlpha && pre.all isSchemeChar then
      (some (pre.map Char.toLower), rest)
    else (none, cs)
  | (_, none) => (none, cs)

/-- Drop a leading `//netloc`: after `//`, the authority extends to the
first `/`, `?` or `#` (`_splitnetloc`). -/
def stripNetloc (cs : List Char) : List Char :=
  match cs with
  | '/' :: '/' :: rest => rest.dropWhile (fun c => c != '/' && c != '?' && c != '#')
  | _ => cs

/-- The schemes for which `urlparse` separates `;params` from the path
(`uses_params`; `""` covers a scheme-less URL such as an origin-form
request target). -/
def usesParams : List (List Char) :=
  (["", "ftp", "hdl", "prospero", "http", "imap", "https", "shttp", "rtsp",
    "rtsps", "rtspu", "sip", "sips", "mms", "sftp", "tel"]).map String.data

/-- `urlparse`'s `_splitparams`: with a `/` present, cut at the first `;`
after the last `/`; otherwise cut at the first `;`. -/
def splitParams (cs : List Char) : List Char :=
  match breakAtChar cs.reverse '/' with
  | (revSuffix, some revPre) =>
    revPre.reverse ++ '/' :: (breakAtChar revSuffix.reverse ';').1
  | (_, none) => (breakAtChar cs ';').1

/-- `urllib.parse.urlparse(target).path` (CPython 3.11.4+ semantics,
verified against 3.11.6): strip leading C0-control/space characters,
remove tab/CR/LF everywhere, recognize `scheme:` and `//netloc`, drop the
fragment (first `#`) and the query (first `?`), and split `;params` off
the last path segment when the scheme is one of `uses_params`. -/
def urlparsePath (target : String) : String :=
  let s0 := (target.data.dropWhile isC0ControlOrSpace).filter
    (fun c => !isUnsafeUrlChar c)
  let sch := splitScheme s0
  let s2 := stripNetloc sch.2
  let s3 := (breakAtChar s2 '#').1
  let s4 := (breakAtChar s3 '?').1
  if sch.1.getD [] ∈ usesParams then ⟨splitParams s4⟩ else ⟨s4⟩

/-! ## The external process oracle -/

/-- An external-command oracle: from a state, an argv either succeeds with
captured stdout (`some`) or exits non-zero (`none`), yielding a successor
state.  `subprocess.check_output` / `check_call` raise
`CalledProcessError` exactly in the `none` case. -/
def ExtOracle (σ : Type) : Type := σ → List String → Option String × σ

/-- Result of running a piece of the script: the produced value, the
oracle state afterwards, and the argvs invoked, in order. -/
structure ExtResult (σ : Type) (α : Type) where
  value : α
  state : σ
  trace : List (List String)
deriving DecidableEq

/-- Argv of `tmux ls -F "#{session_name}\t#{session_windows}\t#{session_attached}"`. -/
def lsCmd : List String :=
  ["tmux", "ls", "-F",
   "#\x7bsession_name\x7d\t#\x7bsession_windows\x7d\t#\x7bsession_attached\x7d"]

/-- Argv of `tmux has-session -t name`. -/
def hasCmd (name : String) : List String := ["tmux", "has-session", "-t", name]

/-- Argv of `tmux new-session -d -s name`. -/
def newCmd (name : String) : List String := ["tmux", "new-session", "-d", "-s", name]

/-- Argv of `tmux kill-session -t name`. -/
def killCmd (name : String) : List String := ["tmux", "kill-session", "-t", name]

/-- The session name argument of a mutating tmux command, if the argv is one. -/
def mutatingName : List String → Option String
  | ["tmux", "has-session", "-t", n] => some n
  | ["tmux", "new-session", "-d", "-s", n] => some n
  | ["tmux", "kill-session", "-t", n] => some n
  | _ => none

/-! ## The process helpers (tmux-api.py lines 17-52) -/

/-- One record of parsed `tmux ls` output. -/
structure Session where
  name : String
  windows : Nat
  attached : Bool
deriving DecidableEq

/-- The loop body of `list_sessions` (lines 23-32): split a line on tabs,
skip it when fewer than three fields, else build the record with
`int(windows) if windows.isdigit() else 0` and `attached == "1"`. -/
def parseLine (line : String) : Option Session :=
  let parts := pySplitChar line '\t'
  if parts.length < 3 then none
  else some
    { name := parts.getD 0 ""
      windows := if pyIsdigit (parts.getD 1 "") then digitsToNat (parts.getD 1 "") else 0
      attached := parts.getD 2 "" == "1" }

/-- `list_sessions()` (lines 17-33): on `CalledProcessError` return `[]`,
else parse `out.strip().splitlines()` line by line. -/
def list_sessions (ext : ExtOracle σ) (st : σ) : ExtResult σ (List Session) :=
  let r := ext st lsCmd
  match r.1 with
  | none => ⟨[], r.2, [lsCmd]⟩
  | some out => ⟨(pySplitlines (pyStrip out)).filterMap parseLine, r.2, [lsCmd]⟩

/-- `has_session(name)` (lines 36-41): true iff `tmux has-session` exits zero. -/
def has_session (ext : ExtOracle σ) (st : σ) (name : String) : ExtResult σ Bool :=
  ⟨(ext st (hasCmd name)).1.isSome, (ext st (hasCmd name)).2, [hasCmd name]⟩

/-- `create_session(name)` (lines 44-48): `some false` when the session
already exists, else run `tmux new-session`; `some true` on success,
`none` when it raises `CalledProcessError`. -/
def create_session (ext : ExtOracle σ) (st : σ) (name : String) : ExtResult σ (Option Bool) :=
  let hs := has_session ext st name
  if hs.value then ⟨some false, hs.state, hs.trace⟩
  else
    match (ext hs.state (newCmd name)).1 with
    | some _ => ⟨some true, (ext hs.state (newCmd name)).2, hs.trace ++ [newCmd name]⟩
    | none => ⟨none, (ext hs.state (newCmd name)).2, hs.trace ++ [newCmd name]⟩

/-- `kill_session(name)` (lines 51-52): `none` models the propagated
`CalledProcessError` of a non-zero exit. -/
def kill_session (ext : ExtOracle σ) (st : σ) (name : String) : ExtResult σ (Option Unit) :=
  ⟨(ext st (killCmd name)).1.map (fun _ => ()), (ext st (killCmd name)).2, [killCmd name]⟩

/-! ## The HTTP handler (tmux-api.py lines 55-108) -/

/-- An HTTP response as emitted by the handler: status code, the two
headers it sets, and the body string (encoded as UTF-8 on the wire). -/
structure Response where
  status : Nat
  contentType : String
  contentLength : String
  body : String
deriving DecidableEq

/-- `Handler._json(code, data)` (lines 56-62): serialize `data`, set
`Content-Type` and `Content-Length` to the body's UTF-8 byte length,
and write the body. -/
def jsonResponse (code : Nat) (data : JVal) : Response :=
  let body := jsonDumps data
  { status := code
    contentType := "application/json; charset=utf-8"
    contentLength := toString (utf8Length body)
    body := body }

/-- The literal `{"error": "invalid_name"}`. -/
def errInvalidName : JVal := .jobj [("error", .jstr "invalid_name")]

/-- The literal `{"error": "not_found"}`. -/
def errNotFound : JVal := .jobj [("error", .jstr "not_found")]

/-- The literal `{"error": "create_failed"}`. -/
def errCreateFailed : JVal := .jobj [("error", .jstr "create_failed")]

/-- An incoming HTTP request, at the point where `BaseHTTPRequestHandler`
hands it to a `do_*` method: the method, the raw request target
(`self.path`), the parsed `Content-Length` header (`int(...)`, default 0),
and the result of `json.loads` on the bytes read from the body
(`none` when `json.loads` raises, i.e. the body is not valid JSON). -/
structure Request where
  method : String
  target : String
  contentLength : Int
  bodyJson : Option PyVal

/-- `Handler._read_json` (lines 64-72): empty object when `Content-Length`
is missing or non-positive, or when `json.loads` raises. -/
def Handler.readJson (req : Request) : PyVal :=
  if req.contentLength ≤ 0 then .pdict []
  else
    match req.bodyJson with
    | some v => v
    | none => .pdict []

/-- One record of `GET /sessions` output:
`{"name": ..., "windows": ..., "attached": ...}` (lines 28-32). -/
def sessionJson (s : Session) : JVal :=
  .jobj [("name", .jstr s.name), ("windows", .jnat s.windows),
         ("attached", .jbool s.attached)]

/-- `Handler.do_GET` (lines 74-78). -/
def Handler.do_GET (ext : ExtOracle σ) (st : σ) (target : String) :
    ExtResult σ Response :=
  if urlparsePath target = "/sessions" then
    let r := list_sessions ext st
    ⟨jsonResponse 200 (.jobj [("sessions", .jarr (r.value.map sessionJson))]),
     r.state, r.trace⟩
  else ⟨jsonResponse 404 errNotFound, st, []⟩

/-- `Handler.do_POST` (lines 80-92).  The value is `none` exactly when the
Python code raises an uncaught exception: `data.get` on a non-dict body
(`AttributeError`), which `do_POST` does not catch. -/
def Handler.do_POST (ext : ExtOracle σ) (st : σ) (req : Request) :
    ExtResult σ (Option Response) :=
  if urlparsePath req.target = "/sessions" then
    match (Handler.readJson req).get "name" (.pstr "") with
    | none => ⟨none, st, []⟩
    | some v =>
      let name := pyStrip (pyStr v)
      if name = "" ∨ ¬ sessionReMatch name then
        ⟨some (jsonResponse 400 errInvalidName), st, []⟩
      else
        let r := create_session ext st name
        match r.value with
        | some created =>
          ⟨some (jsonResponse 200 (.jobj [("ok", .jbool true), ("name", .jstr name),
                                          ("created", .jbool created)])),
           r.state, r.trace⟩
        | none => ⟨some (jsonResponse 500 errCreateFailed), r.state, r.trace⟩
  else ⟨some (jsonResponse 404 errNotFound), st, []⟩

/-- `Handler.do_DELETE` (lines 94-105).  Under the `startswith` guard,
`path.split("/sessions/", 1)[1]` is the suffix after the first occurrence
of `"/sessions/"`, i.e. after the 10-character prefix. -/
def Handler.do_DELETE (ext : ExtOracle σ) (st : σ) (target : String) :
    ExtResult σ Response :=
  let path := urlparsePath target
  if "/sessions/".data.isPrefixOf path.data then
    let name : String := ⟨path.data.drop 10⟩
    if name = "" ∨ ¬ sessionReMatch name then
      ⟨jsonResponse 400 errInvalidName, st, []⟩
    else
      let r := kill_session ext st name
      match r.value with
      | some _ =>
        ⟨jsonResponse 200 (.jobj [("ok", .jbool true), ("name", .jstr name)]),
         r.state, r.trace⟩
      | none => ⟨jsonResponse 404 errNotFound, r.state, r.trace⟩
  else ⟨jsonResponse 404 errNotFound, st, []⟩

/-- What one request produces at the server boundary. -/
inductive HandlerOutcome where
  /-- A response emitted by the handler's own code (via `_json`). -/
  | response : Response → HandlerOutcome
  /-- The class defines no `do_<METHOD>`, so `BaseHTTPRequestHandler`
  itself rejects the request with `501 Unsupported method` before any
  handler code runs. -/
  | unsupportedMethod : String → HandlerOutcome
  /-- An uncaught Python exception escaped the handler method. -/
  | pyError : HandlerOutcome
deriving DecidableEq

/-- Dispatch of one request: `BaseHTTPRequestHandler` calls the `do_*`
method named after the request method; `Handler` defines exactly
`do_GET`, `do_POST` and `do_DELETE` (plus `log_message`, a no-op). -/
def handleRequest (ext : ExtOracle σ) (st : σ) (req : Request) :
    ExtResult σ HandlerOutcome :=
  if req.method = "GET" then
    let r := Handler.do_GET ext st req.target
    ⟨.response r.value, r.state, r.trace⟩
  else if req.method = "POST" then
    let r := Handler.do_POST ext st req
    match r.value with
    | some resp => ⟨.response resp, r.state, r.trace⟩
    | none => ⟨.pyError, r.state, r.trace⟩
  else if req.method = "DELETE" then
    let r := Handler.do_DELETE ext st req.target
    ⟨.response r.value, r.state, r.trace⟩
  else ⟨.unsupportedMethod req.method, st, []⟩

/-! ## A well-behaved external multiplexer -/

/-- Modelled from the spec: the external multiplexer daemon's state, for
the idempotence round trip (§6 "External collaborator": the tmux binary is
not part of this repository).  The state is the list of existing session
names. -/
abbrev TmuxWorld : Type := List String

/-- Modelled from the spec: the external collaborator contract of §6 —
`has-session(name)` succeeds by exit code iff the session exists;
`new-session -d -s name` creates a detached session (tmux rejects a
duplicate name); `kill-session -t name` destroys it, exiting non-zero when
it is absent; `ls -F` prints one tab-separated line per session (one
window, detached). -/
def tmuxStep : ExtOracle TmuxWorld := fun w cmd =>
  match cmd with
  | ["tmux", "has-session", "-t", n] => (if n ∈ w then some "" else none, w)
  | ["tmux", "new-session", "-d", "-s", n] =>
    if n ∈ w then (none, w) else (some "", w ++ [n])
  | ["tmux", "kill-session", "-t", n] =>
    if n ∈ w then (some "", w.erase n) else (none, w)
  | ["tmux", "ls", "-F", _] =>
    (some (String.join (w.map (fun n => n ++ "\t1\t0\n"))), w)
  | _ => (none, w)

/-- An oracle on which every external command fails: no tmux server is
running (and, for `new-session`, the daemon cannot be started). -/
def extAllFail : ExtOracle Unit := fun st _ => (none, st)

/-! ## Helper lemmas -/

theorem string_mk_data (s : String) : String.mk s.data = s := rfl

/-- A `[A-Za-z0-9_.-]` character is not Python whitespace. -/
theorem isSessionChar_not_pySpace (c : Char) (h : isSessionChar c = true) :
    isPySpace c = false := by
  rw [Bool.eq_false_iff]
  intro hs
  simp only [isSessionChar, isPySpace, Bool.or_eq_true, Bool.and_eq_true,
    decide_eq_true_eq, beq_iff_eq] at h hs
  omega

theorem dropWhile_eq_self_of_all {p : Char → Bool} {l : List Char}
    (h : ∀ c ∈ l, p c = false) : l.dropWhile p = l := by
  cases l with
  | nil => rfl
  | cons a t => rw [List.dropWhile_cons, h a (List.mem_cons_self a t)]; simp

theorem pyStrip_eq_self {s : String} (h : ∀ c ∈ s.data, isPySpace c = false) :
    pyStrip s = s := by
  unfold pyStrip
  rw [dropWhile_eq_self_of_all h,
    dropWhile_eq_self_of_all (fun c hc => h c (List.mem_reverse.mp hc)),
    List.reverse_reverse, string_mk_data]

theorem strict_all_sessionChar {s : String} (h : strictSessionMatch s = true) :
    ∀ c ∈ s.data, isSessionChar c = true := by
  simp only [strictSessionMatch, Bool.and_eq_true, List.all_eq_true] at h
  exact h.2

/-- A strictly valid name is unchanged by `strip()`. -/
theorem pyStrip_of_strict {s : String} (h : strictSessionMatch s = true) :
    pyStrip s = s :=
  pyStrip_eq_self (fun c hc => isSessionChar_not_pySpace c (strict_all_sessionChar h c hc))

/-- A strictly valid name is accepted by `re.match(SESSION_RE, ·)`. -/
theorem sessionReMatch_of_strict {s : String} (h : strictSessionMatch s = true) :
    sessionReMatch s = true := by
  have hnl : s.data.getLast? ≠ some '\n' := by
    intro hl
    have hmem := List.mem_of_getLast?_eq_some hl
    have := strict_all_sessionChar h _ hmem
    simp [isSessionChar] at this
  have hb : (s.data.getLast? == some '\n') = false := beq_eq_false_iff_ne.mpr hnl
  simp only [sessionReMatch, hb, Bool.false_eq_true, if_false]
  simpa [strictSessionMatch] using h

theorem pymatch_ne_empty {s : String} (h : sessionReMatch s = true) : s ≠ "" := by
  intro he
  subst he
  exact absurd h (by decide)

theorem head?_dropWhile_false {p : Char → Bool} :
    ∀ (l : List Char) (c : Char), (l.dropWhile p).head? = some c → p c = false := by
  intro l
  induction l with
  | nil => intro c h; simp [List.dropWhile] at h
  | cons a t ih =>
    intro c h
    rw [List.dropWhile_cons] at h
    by_cases hp : p a = true
    · rw [if_pos hp] at h
      exact ih c h
    · rw [if_neg hp] at h
      simp only [List.head?_cons, Option.some.injEq] at h
      subst h
      exact Bool.eq_false_iff.mpr hp

/-- The last character of a stripped string is never whitespace. -/
theorem pyStrip_getLast_not_space {s : String} {c : Char}
    (h : (pyStrip s).data.getLast? = some c) : isPySpace c = false := by
  unfold pyStrip at h
  rw [show (String.mk ((((s.data.dropWhile isPySpace).reverse.dropWhile isPySpace)).reverse)).data
      = (((s.data.dropWhile isPySpace).reverse.dropWhile isPySpace)).reverse from rfl,
    List.getLast?_reverse] at h
  exact head?_dropWhile_false _ _ h

/-- On the output of `strip()`, Python's `re.match(SESSION_RE, ·)` accepting
implies the strict full-pattern match: the trailing-newline allowance of `$`
cannot fire because a stripped string does not end in a newline. -/
theorem strict_of_pymatch_stripped {s : String}
    (h : sessionReMatch (pyStrip s) = true) : strictSessionMatch (pyStrip s) = true := by
  by_cases hl : (pyStrip s).data.getLast? = some '\n'
  · have := pyStrip_getLast_not_space hl
    simp [isPySpace] at this
  · have hb : ((pyStrip s).data.getLast? == some '\n') = false := beq_eq_false_iff_ne.mpr hl
    simp only [sessionReMatch, hb, Bool.false_eq_true, if_false] at h
    simpa [strictSessionMatch] using h

/-- For a string without a newline, `re.match(SESSION_RE, ·)` accepting
implies the strict full-pattern match. -/
theorem strict_of_pymatch_no_newline {s : String}
    (h : sessionReMatch s = true) (hn : '\n' ∉ s.data) : strictSessionMatch s = true := by
  by_cases hl : s.data.getLast? = some '\n'
  · exact absurd (List.mem_of_getLast?_eq_some hl) hn
  · have hb : (s.data.getLast? == some '\n') = false := beq_eq_false_iff_ne.mpr hl
    simp only [sessionReMatch, hb, Bool.false_eq_true, if_false] at h
    simpa [strictSessionMatch] using h

theorem isPrefixOf_append_self (l t : List Char) : l.isPrefixOf (l ++ t) = true := by
  simp

/-- Under the `startswith` guard, the name `do_DELETE` extracts from
`/sessions/{s}` is `s` itself. -/
theorem delete_name_extract (s : String) :
    (("/sessions/" ++ s).data.drop 10 : List Char) = s.data := by
  rw [String.data_append]
  exact List.drop_left' rfl

theorem urlparsePath_sessions : urlparsePath "/sessions" = "/sessions" := by decide

theorem pyStrip_empty : pyStrip "" = "" := by decide

/-! ## Claim C1 -/

theorem breakAtChar_fst_mem {c : Char} :
    ∀ (cs : List Char) (sep : Char), c ∈ (breakAtChar cs sep).1 → c ∈ cs := by
  intro cs sep
  induction cs with
  | nil => intro h; simp [breakAtChar] at h
  | cons a t ih =>
    intro h
    simp only [breakAtChar] at h
    by_cases ha : a = sep
    · rw [if_pos ha] at h
      simp at h
    · rw [if_neg ha] at h
      rcases List.mem_cons.mp h with h | h
      · exact h ▸ List.mem_cons_self a t
      · exact List.mem_cons_of_mem a (ih h)

theorem breakAtChar_snd_mem {c : Char} :
    ∀ (cs : List Char) (sep : Char) (rest : List Char),
      (breakAtChar cs sep).2 = some rest → c ∈ rest → c ∈ cs := by
  intro cs sep
  induction cs with
  | nil => intro rest h; simp [breakAtChar] at h
  | cons a t ih =>
    intro rest h hc
    simp only [breakAtChar] at h
    by_cases ha : a = sep
    · rw [if_pos ha] at h
      simp only at h
      cases h
      exact List.mem_cons_of_mem a hc
    · rw [if_neg ha] at h
      exact List.mem_cons_of_mem a (ih rest h hc)

theorem splitScheme_snd_mem {c : Char} (cs : List Char)
    (h : c ∈ (splitScheme cs).2) : c ∈ cs := by
  unfold splitScheme at h
  rcases hb : breakAtChar cs ':' with ⟨pre, rest?⟩
  rw [hb] at h
  cases rest? with
  | none => exact h
  | some rest =>
    dsimp only at h
    split at h
    · exact breakAtChar_snd_mem cs ':' rest (by rw [hb]) h
    · exact h

theorem stripNetloc_mem {c : Char} (cs : List Char) (h : c ∈ stripNetloc cs) :
    c ∈ cs := by
  unfold stripNetloc at h
  split at h
  · exact List.mem_cons_of_mem _ (List.mem_cons_of_mem _
      ((List.dropWhile_sublist _).subset h))
  · exact h

theorem splitParams_mem {c : Char} (cs : List Char) (h : c ∈ splitParams cs) :
    c ∈ cs ∨ c = '/' := by
  unfold splitParams at h
  rcases hb : breakAtChar cs.reverse '/' with ⟨revSuffix, rest?⟩
  rw [hb] at h
  cases rest? with
  | none => exact Or.inl (breakAtChar_fst_mem cs ';' h)
  | some revPre =>
    dsimp only at h
    rcases List.mem_append.mp h with h | h
    · have h1 : c ∈ revPre := List.mem_reverse.mp h
      have h2 : c ∈ cs.reverse :=
        breakAtChar_snd_mem cs.reverse '/' revPre (by rw [hb]) h1
      exact Or.inl (List.mem_reverse.mp h2)
    · rcases List.mem_cons.mp h with h | h
      · exact Or.inr h
      · have h1 : c ∈ revSuffix.reverse := breakAtChar_fst_mem revSuffix.reverse ';' h
        have h2 : c ∈ (breakAtChar cs.reverse '/').1 := by
          rw [hb]
          exact List.mem_reverse.mp h1
        have h3 : c ∈ cs.reverse := breakAtChar_fst_mem cs.reverse '/' h2
        exact Or.inl (List.mem_reverse.mp h3)

theorem urlparse_stage_no_newline (target : String) :
    '\n' ∉ (breakAtChar (breakAtChar (stripNetloc (splitScheme
      ((target.data.dropWhile isC0ControlOrSpace).filter
        (fun c => !isUnsafeUrlChar c))).2) '#').1 '?').1 := by
  intro h4
  have h3 : '\n' ∈ (breakAtChar (stripNetloc (splitScheme
      ((target.data.dropWhile isC0ControlOrSpace).filter
        (fun c => !isUnsafeUrlChar c))).2) '#').1 :=
    breakAtChar_fst_mem _ '?' h4
  have h2 : '\n' ∈ stripNetloc (splitScheme
      ((target.data.dropWhile isC0ControlOrSpace).filter
        (fun c => !isUnsafeUrlChar c))).2 :=
    breakAtChar_fst_mem _ '#' h3
  have h1 : '\n' ∈ (splitScheme
      ((target.data.dropWhile isC0ControlOrSpace).filter
        (fun c => !isUnsafeUrlChar c))).2 :=
    stripNetloc_mem _ h2
  have h0 : '\n' ∈ (target.data.dropWhile isC0ControlOrSpace).filter
      (fun c => !isUnsafeUrlChar c) :=
    splitScheme_snd_mem _ h1
  have hbad := (List.mem_filter.mp h0).2
  simp [isUnsafeUrlChar] at hbad

/-- The parsed path of any request target contains no newline: `urlsplit`
removes tab, CR and LF from the URL before any other processing. -/
theorem urlparsePath_no_newline (target : String) :
    '\n' ∉ (urlparsePath target).data := by
  intro hmem
  unfold urlparsePath at hmem
  dsimp only at hmem
  split at hmem
  · rcases splitParams_mem _ hmem with h | h
    · exact urlparse_stage_no_newline target h
    · exact absurd h (by decide)
  · exact urlparse_stage_no_newline target hmem

/-- Claim C1 as frozen is false on the code, at two explicit inputs over a
well-behaved external world holding one session `"abc"`.  The string
`" abc "` does not match `^[A-Za-z0-9_.-]+$` (it contains spaces), yet
`POST /sessions` with body `{"name": " abc "}` strips it to `"abc"` and
answers 200 (here `created: false`), invoking the external process; and the
string `"abc#x"` does not match the pattern, yet `DELETE /sessions/abc#x`
parses to the path `/sessions/abc` (urlparse drops the fragment), invokes
`tmux kill-session` with `"abc"`, and answers 200, not 400. -/
theorem c1_counterexample :
    (handleRequest tmuxStep (["abc"] : TmuxWorld)
       ⟨"POST", "/sessions", 1, some (.pdict [("name", .pstr " abc ")])⟩).value =
      .response (jsonResponse 200 (.jobj [("ok", .jbool true), ("name", .jstr "abc"),
                                          ("created", .jbool false)])) ∧
    (handleRequest tmuxStep (["abc"] : TmuxWorld)
       ⟨"POST", "/sessions", 1, some (.pdict [("name", .pstr " abc ")])⟩).trace =
      [hasCmd "abc"] ∧
    (handleRequest tmuxStep (["abc"] : TmuxWorld)
       ⟨"DELETE", "/sessions/abc#x", 0, none⟩).value =
      .response (jsonResponse 200 (.jobj [("ok", .jbool true), ("name", .jstr "abc")])) ∧
    (handleRequest tmuxStep (["abc"] : TmuxWorld)
       ⟨"DELETE", "/sessions/abc#x", 0, none⟩).trace = [killCmd "abc"] := by
  refine ⟨?_, ?_, ?_, ?_⟩ <;> decide

/-- Claim C1 (amended): for every string `s` whose `strip()` does not
match `[A-Za-z0-9_.-]+` in full, `POST /sessions` with body `{"name": s}`
returns 400 `{"error": "invalid_name"}` and invokes no external command;
and every DELETE request whose urlparse-parsed path has the form
`/sessions/{n}` with the suffix `n` not matching `[A-Za-z0-9_.-]+` in full
returns 400 `{"error": "invalid_name"}` and invokes no external command.
(POST strips the name before validating; DELETE validates the name
extracted from the parsed path, after urlparse has removed any fragment,
query, params and the URL-unsafe characters tab/CR/LF.) -/
theorem c1_amended :
    (∀ (σ : Type) (ext : ExtOracle σ) (st : σ) (cl : Int) (s : String),
      strictSessionMatch (pyStrip s) = false →
      (handleRequest ext st
          ⟨"POST", "/sessions", cl, some (.pdict [("name", .pstr s)])⟩).value =
        .response (jsonResponse 400 errInvalidName) ∧
      (handleRequest ext st
          ⟨"POST", "/sessions", cl, some (.pdict [("name", .pstr s)])⟩).trace = []) ∧
    (∀ (σ : Type) (ext : ExtOracle σ) (st : σ) (target : String) (cl : Int)
        (body : Option PyVal),
      "/sessions/".data.isPrefixOf (urlparsePath target).data = true →
      strictSessionMatch (⟨(urlparsePath target).data.drop 10⟩ : String) = false →
      (handleRequest ext st ⟨"DELETE", target, cl, body⟩).value =
        .response (jsonResponse 400 errInvalidName) ∧
      (handleRequest ext st ⟨"DELETE", target, cl, body⟩).trace = []) := by
  constructor
  · intro σ ext st cl s hm
    have hpm : sessionReMatch (pyStrip s) = false := by
      by_contra hc
      rw [Bool.not_eq_false] at hc
      rw [strict_of_pymatch_stripped hc] at hm
      exact Bool.noConfusion hm
    by_cases hcl : cl ≤ 0
    · simp [handleRequest, Handler.do_POST, Handler.readJson, hcl,
        urlparsePath_sessions, PyVal.get, pyLookup, pyStr, pyStrip_empty]
    · simp [handleRequest, Handler.do_POST, Handler.readJson, hcl,
        urlparsePath_sessions, PyVal.get, pyLookup, pyStr, hpm]
  · intro σ ext st target cl body hpre hm
    have hpm : sessionReMatch (⟨(urlparsePath target).data.drop 10⟩ : String) =
        false := by
      by_contra hc
      rw [Bool.not_eq_false] at hc
      have hnn : '\n' ∉ ((⟨(urlparsePath target).data.drop 10⟩ : String)).data :=
        fun hmem => urlparsePath_no_newline target (List.mem_of_mem_drop hmem)
      rw [strict_of_pymatch_no_newline hc hnn] at hm
      exact Bool.noConfusion hm
    simp [handleRequest, Handler.do_DELETE, hpre, hpm]

/-- Witness for `c1_amended`: POST with name `"a b"` (an inner space
survives stripping and fails the pattern) and `DELETE /sessions/a%b`. -/
theorem c1_amended_witness :
    ((handleRequest extAllFail ()
        ⟨"POST", "/sessions", 1, some (.pdict [("name", .pstr "a b")])⟩).value =
      .response (jsonResponse 400 errInvalidName) ∧
     (handleRequest extAllFail ()
        ⟨"POST", "/sessions", 1, some (.pdict [("name", .pstr "a b")])⟩).trace = []) ∧
    ((handleRequest extAllFail () ⟨"DELETE", "/sessions/a%b", 0, none⟩).value =
      .response (jsonResponse 400 errInvalidName) ∧
     (handleRequest extAllFail () ⟨"DELETE", "/sessions/a%b", 0, none⟩).trace = []) :=
  ⟨c1_amended.1 Unit extAllFail () 1 "a b" (by decide),
   c1_amended.2 Unit extAllFail () "/sessions/a%b" 0 none (by decide) (by decide)⟩

/-! ## Claim C2 -/

theorem tmuxStep_has (w : TmuxWorld) (n : String) :
    tmuxStep w (hasCmd n) = (if n ∈ w then some "" else none, w) := rfl

theorem tmuxStep_new (w : TmuxWorld) (n : String) :
    tmuxStep w (newCmd n) = if n ∈ w then (none, w) else (some "", w ++ [n]) := rfl

theorem one_int_not_le_zero : ¬ (1 : Int) ≤ 0 := by decide

/-- Claim C2 (confirmed): `create_session` is idempotent.  When
`has-session` succeeds, it returns `false` having invoked nothing but
`has-session` (in particular no `new-session`); when `has-session` fails it
invokes `new-session` and returns `true` if that succeeds.  Consequently,
over a well-behaved external multiplexer (`tmuxStep`, modelled from the
spec's §6 contract), two successive `POST /sessions` with the same valid
name answer 200 `created: true` then 200 `created: false`, `ok: true`. -/
theorem c2_create_idempotent :
    (∀ (σ : Type) (ext : ExtOracle σ) (st : σ) (name : String),
      (ext st (hasCmd name)).1.isSome = true →
      create_session ext st name =
        ⟨some false, (ext st (hasCmd name)).2, [hasCmd name]⟩) ∧
    (∀ (σ : Type) (ext : ExtOracle σ) (st : σ) (name : String),
      (ext st (hasCmd name)).1 = none →
      (create_session ext st name).trace = [hasCmd name, newCmd name] ∧
      ((ext (ext st (hasCmd name)).2 (newCmd name)).1.isSome = true →
        (create_session ext st name).value = some true)) ∧
    (∀ (name : String) (w : TmuxWorld),
      strictSessionMatch name = true → name ∉ w →
      (handleRequest tmuxStep w
          ⟨"POST", "/sessions", 1, some (.pdict [("name", .pstr name)])⟩).value =
        .response (jsonResponse 200 (.jobj [("ok", .jbool true), ("name", .jstr name),
                                            ("created", .jbool true)])) ∧
      (handleRequest tmuxStep
          (handleRequest tmuxStep w
              ⟨"POST", "/sessions", 1, some (.pdict [("name", .pstr name)])⟩).state
          ⟨"POST", "/sessions", 1, some (.pdict [("name", .pstr name)])⟩).value =
        .response (jsonResponse 200 (.jobj [("ok", .jbool true), ("name", .jstr name),
                                            ("created", .jbool false)]))) := by
  refine ⟨?_, ?_, ?_⟩
  · intro σ ext st name h
    simp [create_session, has_session, h]
  · intro σ ext st name h
    have h2 : (ext st (hasCmd name)).1.isSome = false := by rw [h]; rfl
    constructor
    · cases hnew : (ext (ext st (hasCmd name)).2 (newCmd name)).1 with
      | none => simp [create_session, has_session, h2, hnew]
      | some out => simp [create_session, has_session, h2, hnew]
    · intro hn
      cases hnew : (ext (ext st (hasCmd name)).2 (newCmd name)).1 with
      | none => rw [hnew] at hn; simp at hn
      | some out => simp [create_session, has_session, h2, hnew]
  · intro name w hstrict hmem
    have hpy := sessionReMatch_of_strict hstrict
    have hne : ¬ name = "" := by
      intro h
      rw [h] at hstrict
      exact absurd hstrict (by decide)
    have hstrip : pyStrip name = name := pyStrip_of_strict hstrict
    have hmem2 : name ∈ w ++ [name] :=
      List.mem_append_right _ (List.mem_singleton.mpr rfl)
    constructor
    · simp [handleRequest, Handler.do_POST, Handler.readJson, urlparsePath_sessions,
        one_int_not_le_zero, PyVal.get, pyLookup, pyStr, hstrip, hne, hpy,
        create_session, has_session, tmuxStep_has, tmuxStep_new, hmem]
    · simp [handleRequest, Handler.do_POST, Handler.readJson, urlparsePath_sessions,
        one_int_not_le_zero, PyVal.get, pyLookup, pyStr, hstrip, hne, hpy,
        create_session, has_session, tmuxStep_has, tmuxStep_new, hmem, hmem2]

/-- Witness for `c2_create_idempotent`: an existing session `"a"` is not
re-created, and the `"alpha"` round trip on an empty world. -/
theorem c2_witness :
    create_session tmuxStep (["a"] : TmuxWorld) "a" =
      ⟨some false, (tmuxStep ["a"] (hasCmd "a")).2, [hasCmd "a"]⟩ ∧
    ((handleRequest tmuxStep ([] : TmuxWorld)
        ⟨"POST", "/sessions", 1, some (.pdict [("name", .pstr "alpha")])⟩).value =
      .response (jsonResponse 200 (.jobj [("ok", .jbool true), ("name", .jstr "alpha"),
                                          ("created", .jbool true)])) ∧
     (handleRequest tmuxStep
        (handleRequest tmuxStep ([] : TmuxWorld)
            ⟨"POST", "/sessions", 1, some (.pdict [("name", .pstr "alpha")])⟩).state
        ⟨"POST", "/sessions", 1, some (.pdict [("name", .pstr "alpha")])⟩).value =
      .response (jsonResponse 200 (.jobj [("ok", .jbool true), ("name", .jstr "alpha"),
                                          ("created", .jbool false)]))) :=
  ⟨c2_create_idempotent.1 TmuxWorld tmuxStep ["a"] "a" (by decide),
   c2_create_idempotent.2.2 "alpha" [] (by decide) (by decide)⟩

/-! ## Claim C3 -/

/-- Claim C3 (confirmed): `list_sessions` never fails — a non-zero exit of
the external list command yields the empty list — so `GET /sessions`
always answers 200 with a `{"sessions": [...]}` body, and answers exactly
`{"sessions": []}` whenever the external command fails (e.g. no daemon). -/
theorem c3_list_never_fails :
    (∀ (σ : Type) (ext : ExtOracle σ) (st : σ),
      (ext st lsCmd).1 = none → (list_sessions ext st).value = []) ∧
    (∀ (σ : Type) (ext : ExtOracle σ) (st : σ) (target : String) (cl : Int)
        (body : Option PyVal),
      urlparsePath target = "/sessions" →
      ∃ ss : List Session,
        (handleRequest ext st ⟨"GET", target, cl, body⟩).value =
          .response (jsonResponse 200 (.jobj [("sessions", .jarr (ss.map sessionJson))]))) ∧
    (∀ (σ : Type) (ext : ExtOracle σ) (st : σ) (target : String) (cl : Int)
        (body : Option PyVal),
      urlparsePath target = "/sessions" → (ext st lsCmd).1 = none →
      (handleRequest ext st ⟨"GET", target, cl, body⟩).value =
        .response (jsonResponse 200 (.jobj [("sessions", .jarr [])]))) := by
  refine ⟨?_, ?_, ?_⟩
  · intro σ ext st h
    simp [list_sessions, h]
  · intro σ ext st target cl body hpath
    refine ⟨(list_sessions ext st).value, ?_⟩
    simp [handleRequest, Handler.do_GET, hpath]
  · intro σ ext st target cl body hpath h
    simp [handleRequest, Handler.do_GET, hpath, list_sessions, h]

/-- Witness for `c3_list_never_fails` on the all-failing oracle. -/
theorem c3_witness :
    (list_sessions extAllFail ()).value = [] ∧
    (handleRequest extAllFail () ⟨"GET", "/sessions", 0, none⟩).value =
      .response (jsonResponse 200 (.jobj [("sessions", .jarr [])])) :=
  ⟨c3_list_never_fails.1 Unit extAllFail () rfl,
   c3_list_never_fails.2.2 Unit extAllFail () "/sessions" 0 none (by decide) rfl⟩

/-! ## Claim C4 -/

/-- Claim C4 (confirmed): a non-zero exit of the external command maps to
HTTP 500 `{"error": "create_failed"}` on `POST /sessions` (when the
session did not exist and `new-session` fails) and to HTTP 404
`{"error": "not_found"}` on `DELETE /sessions/{name}` — for every oracle,
so an absent session is indistinguishable from any other failure. -/
theorem c4_process_error_mapping :
    (∀ (σ : Type) (ext : ExtOracle σ) (st : σ) (cl : Int) (n : String),
      ¬ cl ≤ 0 →
      sessionReMatch (pyStrip n) = true →
      (ext st (hasCmd (pyStrip n))).1 = none →
      (ext (ext st (hasCmd (pyStrip n))).2 (newCmd (pyStrip n))).1 = none →
      (handleRequest ext st
          ⟨"POST", "/sessions", cl, some (.pdict [("name", .pstr n)])⟩).value =
        .response (jsonResponse 500 errCreateFailed)) ∧
    (∀ (σ : Type) (ext : ExtOracle σ) (st : σ) (s : String),
      urlparsePath ("/sessions/" ++ s) = "/sessions/" ++ s →
      sessionReMatch s = true →
      (ext st (killCmd s)).1 = none →
      (handleRequest ext st ⟨"DELETE", "/sessions/" ++ s, 0, none⟩).value =
        .response (jsonResponse 404 errNotFound)) := by
  constructor
  · intro σ ext st cl n hcl hm hhas hnew
    have hne : ¬ pyStrip n = "" := pymatch_ne_empty hm
    have hhas2 : (ext st (hasCmd (pyStrip n))).1.isSome = false := by rw [hhas]; rfl
    simp [handleRequest, Handler.do_POST, Handler.readJson, hcl,
      urlparsePath_sessions, PyVal.get, pyLookup, pyStr, hm, hne,
      create_session, has_session, hhas2, hnew]
  · intro σ ext st s hu hm hkill
    have hne : ¬ s = "" := pymatch_ne_empty hm
    have hpre : ("/sessions/".data).isPrefixOf ("/sessions/" ++ s).data = true := by
      rw [String.data_append]
      exact isPrefixOf_append_self _ _
    have hname : (⟨("/sessions/" ++ s).data.drop 10⟩ : String) = s := by
      rw [delete_name_extract]
    simp [handleRequest, Handler.do_DELETE, hu, hpre, hname, hm, hne,
      kill_session, hkill]

/-- Witness for `c4_process_error_mapping` on the all-failing oracle. -/
theorem c4_witness :
    (handleRequest extAllFail ()
        ⟨"POST", "/sessions", 1, some (.pdict [("name", .pstr "alpha")])⟩).value =
      .response (jsonResponse 500 errCreateFailed) ∧
    (handleRequest extAllFail () ⟨"DELETE", "/sessions/" ++ "alpha", 0, none⟩).value =
      .response (jsonResponse 404 errNotFound) :=
  ⟨c4_process_error_mapping.1 Unit extAllFail () 1 "alpha"
      (by decide) (by decide) rfl rfl,
   c4_process_error_mapping.2 Unit extAllFail () "alpha" (by decide) (by decide) rfl⟩

/-! ## Claim C5 -/

/-- Claim C5 as frozen is false on the code at the explicit input
`PUT /sessions`: the handler class defines no `do_PUT`, so the request is
rejected by `BaseHTTPRequestHandler` with `501 Unsupported method`, not
with the claimed 404 `{"error": "not_found"}` JSON response. -/
theorem c5_counterexample :
    (handleRequest tmuxStep ([] : TmuxWorld) ⟨"PUT", "/sessions", 0, none⟩).value =
      .unsupportedMethod "PUT" ∧
    (handleRequest tmuxStep ([] : TmuxWorld) ⟨"PUT", "/sessions", 0, none⟩).value ≠
      .response (jsonResponse 404 errNotFound) := by
  constructor
  · rfl
  · decide

/-- Claim C5 (amended): every GET or POST request whose parsed path is not
`/sessions`, and every DELETE request whose parsed path does not start with
`/sessions/` (e.g. `DELETE /sessions`), is answered 404
`{"error": "not_found"}` with no external invocation; a request with any
other method (e.g. `PUT /sessions`) is rejected by the HTTP library layer
as `501 Unsupported method`, not 404. -/
theorem c5_amended :
    (∀ (σ : Type) (ext : ExtOracle σ) (st : σ) (req : Request),
      req.method = "GET" → urlparsePath req.target ≠ "/sessions" →
      (handleRequest ext st req).value = .response (jsonResponse 404 errNotFound) ∧
      (handleRequest ext st req).trace = []) ∧
    (∀ (σ : Type) (ext : ExtOracle σ) (st : σ) (req : Request),
      req.method = "POST" → urlparsePath req.target ≠ "/sessions" →
      (handleRequest ext st req).value = .response (jsonResponse 404 errNotFound) ∧
      (handleRequest ext st req).trace = []) ∧
    (∀ (σ : Type) (ext : ExtOracle σ) (st : σ) (req : Request),
      req.method = "DELETE" →
      ("/sessions/".data).isPrefixOf (urlparsePath req.target).data = false →
      (handleRequest ext st req).value = .response (jsonResponse 404 errNotFound) ∧
      (handleRequest ext st req).trace = []) ∧
    (∀ (σ : Type) (ext : ExtOracle σ) (st : σ) (req : Request),
      req.method ≠ "GET" → req.method ≠ "POST" → req.method ≠ "DELETE" →
      (handleRequest ext st req).value = .unsupportedMethod req.method ∧
      (handleRequest ext st req).trace = []) := by
  refine ⟨?_, ?_, ?_, ?_⟩
  · intro σ ext st req hm hpath
    simp [handleRequest, Handler.do_GET, hm, hpath]
  · intro σ ext st req hm hpath
    simp [handleRequest, Handler.do_POST, hm, hpath]
  · intro σ ext st req hm hpre
    simp [handleRequest, Handler.do_DELETE, hm, hpre]
  · intro σ ext st req hg hp hd
    simp [handleRequest, hg, hp, hd]

/-- Witness for `c5_amended` at `GET /nope`, `POST /other`,
`DELETE /sessions` and `PATCH /sessions`. -/
theorem c5_witness :
    ((handleRequest extAllFail () ⟨"GET", "/nope", 0, none⟩).value =
        .response (jsonResponse 404 errNotFound) ∧
      (handleRequest extAllFail () ⟨"GET", "/nope", 0, none⟩).trace = []) ∧
    ((handleRequest extAllFail () ⟨"POST", "/other", 0, none⟩).value =
        .response (jsonResponse 404 errNotFound) ∧
      (handleRequest extAllFail () ⟨"POST", "/other", 0, none⟩).trace = []) ∧
    ((handleRequest extAllFail () ⟨"DELETE", "/sessions", 0, none⟩).value =
        .response (jsonResponse 404 errNotFound) ∧
      (handleRequest extAllFail () ⟨"DELETE", "/sessions", 0, none⟩).trace = []) ∧
    ((handleRequest extAllFail () ⟨"PATCH", "/sessions", 0, none⟩).value =
        .unsupportedMethod "PATCH" ∧
      (handleRequest extAllFail () ⟨"PATCH", "/sessions", 0, none⟩).trace = []) :=
  ⟨c5_amended.1 Unit extAllFail () ⟨"GET", "/nope", 0, none⟩ rfl (by decide),
   c5_amended.2.1 Unit extAllFail () ⟨"POST", "/other", 0, none⟩ rfl (by decide),
   c5_amended.2.2.1 Unit extAllFail () ⟨"DELETE", "/sessions", 0, none⟩ rfl (by decide),
   c5_amended.2.2.2 Unit extAllFail () ⟨"PATCH", "/sessions", 0, none⟩
     (by decide) (by decide) (by decide)⟩

/-! ## Claim C6 -/

/-- Claim C6 (confirmed): a `POST /sessions` whose body is missing
(`Content-Length` absent or non-positive) or not valid JSON is read as the
empty object, so the name defaults to `""` and the response is 400
`{"error": "invalid_name"}` with no external invocation — malformed bodies
are never surfaced as a distinct error. -/
theorem c6_malformed_body :
    ∀ (σ : Type) (ext : ExtOracle σ) (st : σ) (target : String) (cl : Int)
      (body : Option PyVal),
      urlparsePath target = "/sessions" →
      (cl ≤ 0 ∨ body = none) →
      Handler.readJson ⟨"POST", target, cl, body⟩ = .pdict [] ∧
      (handleRequest ext st ⟨"POST", target, cl, body⟩).value =
        .response (jsonResponse 400 errInvalidName) ∧
      (handleRequest ext st ⟨"POST", target, cl, body⟩).trace = [] := by
  intro σ ext st target cl body hpath hbad
  have hread : Handler.readJson ⟨"POST", target, cl, body⟩ = .pdict [] := by
    rcases hbad with hcl | hb
    · simp [Handler.readJson, hcl]
    · by_cases hcl : cl ≤ 0
      · simp [Handler.readJson, hcl]
      · simp [Handler.readJson, hcl, hb]
  refine ⟨hread, ?_⟩
  simp [handleRequest, Handler.do_POST, hread, hpath, PyVal.get, pyLookup, pyStr,
    pyStrip_empty]

/-- Witness for `c6_malformed_body`: a POST with an unparsable body. -/
theorem c6_witness :
    Handler.readJson ⟨"POST", "/sessions", 7, none⟩ = .pdict [] ∧
    (handleRequest extAllFail () ⟨"POST", "/sessions", 7, none⟩).value =
      .response (jsonResponse 400 errInvalidName) ∧
    (handleRequest extAllFail () ⟨"POST", "/sessions", 7, none⟩).trace = [] :=
  c6_malformed_body Unit extAllFail () "/sessions" 7 none (by decide) (Or.inr rfl)

/-! ## Claim C7 -/

theorem do_GET_shape (σ : Type) (ext : ExtOracle σ) (st : σ) (target : String) :
    ∃ code data, (Handler.do_GET ext st target).value = jsonResponse code data := by
  unfold Handler.do_GET
  split
  · exact ⟨200, _, rfl⟩
  · exact ⟨404, errNotFound, rfl⟩

theorem do_POST_shape (σ : Type) (ext : ExtOracle σ) (st : σ) (req : Request)
    (r : Response) (h : (Handler.do_POST ext st req).value = some r) :
    ∃ code data, r = jsonResponse code data := by
  unfold Handler.do_POST at h
  split at h
  · split at h
    · simp at h
    · dsimp only at h
      split at h
      · simp only [Option.some.injEq] at h
        exact ⟨400, errInvalidName, h.symm⟩
      · split at h
        · simp only [Option.some.injEq] at h
          exact ⟨200, _, h.symm⟩
        · simp only [Option.some.injEq] at h
          exact ⟨500, errCreateFailed, h.symm⟩
  · simp only [Option.some.injEq] at h
    exact ⟨404, errNotFound, h.symm⟩

theorem do_DELETE_shape (σ : Type) (ext : ExtOracle σ) (st : σ) (target : String) :
    ∃ code data, (Handler.do_DELETE ext st target).value = jsonResponse code data := by
  unfold Handler.do_DELETE
  dsimp only
  split
  · split
    · exact ⟨400, errInvalidName, rfl⟩
    · split
      · exact ⟨200, _, rfl⟩
      · exact ⟨404, errNotFound, rfl⟩
  · exact ⟨404, errNotFound, rfl⟩

/-- Claim C7 (confirmed): every response the handler emits — on every
route, for every request and oracle — is produced by `_json`, so its body
is serialized JSON and its `Content-Length` header is exactly the UTF-8
byte length of that body. -/
theorem c7_content_length :
    ∀ (σ : Type) (ext : ExtOracle σ) (st : σ) (req : Request) (r : Response),
      (handleRequest ext st req).value = .response r →
      (∃ code data, r = jsonResponse code data) ∧
      r.contentLength = toString (utf8Length r.body) := by
  intro σ ext st req r h
  have hshape : ∃ code data, r = jsonResponse code data := by
    by_cases hg : req.method = "GET"
    · have hv : (handleRequest ext st req).value =
          .response (Handler.do_GET ext st req.target).value := by
        simp [handleRequest, hg]
      rw [hv] at h
      simp only [HandlerOutcome.response.injEq] at h
      obtain ⟨c, d, hcd⟩ := do_GET_shape σ ext st req.target
      exact ⟨c, d, h ▸ hcd⟩
    · by_cases hp : req.method = "POST"
      · rcases hpost : (Handler.do_POST ext st req).value with _ | resp
        · have hv : (handleRequest ext st req).value = .pyError := by
            simp [handleRequest, hg, hp, hpost]
          rw [hv] at h
          exact absurd h (by simp)
        · have hv : (handleRequest ext st req).value = .response resp := by
            simp [handleRequest, hg, hp, hpost]
          rw [hv] at h
          simp only [HandlerOutcome.response.injEq] at h
          obtain ⟨c, d, hcd⟩ := do_POST_shape σ ext st req resp hpost
          exact ⟨c, d, h ▸ hcd⟩
      · by_cases hd : req.method = "DELETE"
        · have hv : (handleRequest ext st req).value =
              .response (Handler.do_DELETE ext st req.target).value := by
            simp [handleRequest, hg, hp, hd]
          rw [hv] at h
          simp only [HandlerOutcome.response.injEq] at h
          obtain ⟨c, d, hcd⟩ := do_DELETE_shape σ ext st req.target
          exact ⟨c, d, h ▸ hcd⟩
        · have hv : (handleRequest ext st req).value =
              .unsupportedMethod req.method := by
            simp [handleRequest, hg, hp, hd]
          rw [hv] at h
          exact absurd h (by simp)
  obtain ⟨c, d, rfl⟩ := hshape
  exact ⟨⟨c, d, rfl⟩, rfl⟩

/-- Witness for `c7_content_length` at `GET /sessions` on the all-failing
oracle. -/
theorem c7_witness :
    (∃ code data,
      jsonResponse 200 (.jobj [("sessions", .jarr [])]) = jsonResponse code data) ∧
    (jsonResponse 200 (.jobj [("sessions", .jarr [])])).contentLength =
      toString (utf8Length (jsonResponse 200 (.jobj [("sessions", .jarr [])])).body) :=
  c7_content_length Unit extAllFail () ⟨"GET", "/sessions", 0, none⟩
    (jsonResponse 200 (.jobj [("sessions", .jarr [])])) (by decide)

/-! ## Claim C8 -/

theorem do_GET_trace (σ : Type) (ext : ExtOracle σ) (st : σ) (target : String) :
    (Handler.do_GET ext st target).trace = [] ∨
    (Handler.do_GET ext st target).trace = [lsCmd] := by
  unfold Handler.do_GET
  split
  · right
    unfold list_sessions
    dsimp only
    split <;> rfl
  · left; rfl

theorem create_session_trace (σ : Type) (ext : ExtOracle σ) (st : σ) (name : String) :
    (create_session ext st name).trace = [hasCmd name] ∨
    (create_session ext st name).trace = [hasCmd name, newCmd name] := by
  unfold create_session has_session
  dsimp only
  split
  · left; rfl
  · split <;> (right; rfl)

theorem do_POST_trace (σ : Type) (ext : ExtOracle σ) (st : σ) (req : Request) :
    (Handler.do_POST ext st req).trace = [] ∨
    ∃ name, sessionReMatch name = true ∧ (∃ x, name = pyStrip x) ∧
      ((Handler.do_POST ext st req).trace = [hasCmd name] ∨
       (Handler.do_POST ext st req).trace = [hasCmd name, newCmd name]) := by
  unfold Handler.do_POST
  split
  · split
    · left; rfl
    · dsimp only
      split
      · left; rfl
      · rename_i v heq hcond
        push_neg at hcond
        right
        refine ⟨pyStrip (pyStr v), hcond.2, ⟨pyStr v, rfl⟩, ?_⟩
        rcases create_session_trace σ ext st (pyStrip (pyStr v)) with h | h
        · left
          split <;> simpa using h
        · right
          split <;> simpa using h
  · left; rfl

theorem do_DELETE_trace (σ : Type) (ext : ExtOracle σ) (st : σ) (target : String) :
    (Handler.do_DELETE ext st target).trace = [] ∨
    ∃ name, sessionReMatch name = true ∧
      name = (⟨(urlparsePath target).data.drop 10⟩ : String) ∧
      (Handler.do_DELETE ext st target).trace = [killCmd name] := by
  unfold Handler.do_DELETE
  dsimp only
  split
  · split
    · left; rfl
    · rename_i hcond
      push_neg at hcond
      right
      refine ⟨⟨(urlparsePath target).data.drop 10⟩, hcond.2, rfl, ?_⟩
      unfold kill_session
      dsimp only
      split <;> rfl
  · left; rfl

/-- Claim C8 (confirmed): every name handed to an external mutating command
(`has-session`, `new-session`, `kill-session`) matches `[A-Za-z0-9_.-]+` in
full — validation runs before any request-derived string reaches the
process boundary.  The hypothesis that the parsed path contains no newline
always holds for real requests: `self.path` comes from the HTTP request
line, which is newline-terminated. -/
theorem c8_validation_invariant :
    ∀ (σ : Type) (ext : ExtOracle σ) (st : σ) (req : Request),
      '\n' ∉ (urlparsePath req.target).data →
      ∀ cmd ∈ (handleRequest ext st req).trace, ∀ n, mutatingName cmd = some n →
        strictSessionMatch n = true := by
  intro σ ext st req hnl cmd hcmd n hmut
  by_cases hg : req.method = "GET"
  · have hv : (handleRequest ext st req).trace =
        (Handler.do_GET ext st req.target).trace := by
      simp [handleRequest, hg]
    rw [hv] at hcmd
    rcases do_GET_trace σ ext st req.target with h | h <;> rw [h] at hcmd
    · simp at hcmd
    · simp only [List.mem_singleton] at hcmd
      subst hcmd
      have hls : mutatingName lsCmd = none := rfl
      rw [hls] at hmut
      exact Option.noConfusion hmut
  · by_cases hp : req.method = "POST"
    · have hv : (handleRequest ext st req).trace =
          (Handler.do_POST ext st req).trace := by
        rcases hpost : (Handler.do_POST ext st req).value with _ | resp <;>
          simp [handleRequest, hg, hp, hpost]
      rw [hv] at hcmd
      rcases do_POST_trace σ ext st req with h | ⟨name, hre, ⟨x, hx⟩, h | h⟩ <;>
        rw [h] at hcmd
      · simp at hcmd
      · simp only [List.mem_singleton] at hcmd
        subst hcmd
        have hhm : mutatingName (hasCmd name) = some name := rfl
        rw [hhm] at hmut
        injection hmut with hn
        subst hn
        subst hx
        exact strict_of_pymatch_stripped hre
      · simp only [List.mem_cons, List.mem_singleton, List.not_mem_nil, or_false] at hcmd
        rcases hcmd with hcmd | hcmd <;> subst hcmd
        · have hhm : mutatingName (hasCmd name) = some name := rfl
          rw [hhm] at hmut
          injection hmut with hn
          subst hn
          subst hx
          exact strict_of_pymatch_stripped hre
        · have hhm : mutatingName (newCmd name) = some name := rfl
          rw [hhm] at hmut
          injection hmut with hn
          subst hn
          subst hx
          exact strict_of_pymatch_stripped hre
    · by_cases hd : req.method = "DELETE"
      · have hv : (handleRequest ext st req).trace =
            (Handler.do_DELETE ext st req.target).trace := by
          simp [handleRequest, hg, hp, hd]
        rw [hv] at hcmd
        rcases do_DELETE_trace σ ext st req.target with h | ⟨name, hre, hname, h⟩ <;>
          rw [h] at hcmd
        · simp at hcmd
        · simp only [List.mem_singleton] at hcmd
          subst hcmd
          have hhm : mutatingName (killCmd name) = some name := rfl
          rw [hhm] at hmut
          injection hmut with hn
          subst hn
          have hnn : '\n' ∉ name.data := by
            rw [hname]
            intro hmem
            exact hnl (List.mem_of_mem_drop hmem)
          exact strict_of_pymatch_no_newline hre hnn
      · have hv : (handleRequest ext st req).trace = [] := by
          simp [handleRequest, hg, hp, hd]
        rw [hv] at hcmd
        simp at hcmd

/-- Witness for `c8_validation_invariant`: the name `"alpha"` reaching
`kill-session` on `DELETE /sessions/alpha` matches the pattern in full. -/
theorem c8_witness : strictSessionMatch "alpha" = true :=
  c8_validation_invariant TmuxWorld tmuxStep ["x"]
    ⟨"DELETE", "/sessions/alpha", 0, none⟩ (by decide)
    (killCmd "alpha") (by decide) "alpha" rfl

/-! ## Claim C9 -/

theorem do_POST_name_coerce (σ : Type) (ext : ExtOracle σ) (st : σ)
    (target : String) (cl : Int) (v w : PyVal) (h : pyStr v = pyStr w) :
    Handler.do_POST ext st ⟨"POST", target, cl, some (.pdict [("name", v)])⟩ =
    Handler.do_POST ext st ⟨"POST", target, cl, some (.pdict [("name", w)])⟩ := by
  by_cases hcl : cl ≤ 0
  · simp only [Handler.do_POST, Handler.readJson, if_pos hcl]
  · simp only [Handler.do_POST, Handler.readJson, if_neg hcl, PyVal.get, pyLookup,
      eq_self_iff_true, if_true, Option.getD_some, h]

/-- Claim C9 (confirmed): on `POST /sessions` a non-string `name` is
coerced with `str()` rather than rejected: a body `{"name": 123}` behaves
exactly like `{"name": "123"}` and `{"name": null}` exactly like
`{"name": "None"}`; both coerced strings match the name pattern, so on an
empty well-behaved world they create sessions `"123"` and `"None"`. -/
theorem c9_name_coercion :
    (∀ (σ : Type) (ext : ExtOracle σ) (st : σ) (target : String) (cl : Int),
      Handler.do_POST ext st ⟨"POST", target, cl, some (.pdict [("name", .pint 123)])⟩ =
      Handler.do_POST ext st
        ⟨"POST", target, cl, some (.pdict [("name", .pstr "123")])⟩) ∧
    (∀ (σ : Type) (ext : ExtOracle σ) (st : σ) (target : String) (cl : Int),
      Handler.do_POST ext st ⟨"POST", target, cl, some (.pdict [("name", .pnone)])⟩ =
      Handler.do_POST ext st
        ⟨"POST", target, cl, some (.pdict [("name", .pstr "None")])⟩) ∧
    ((handleRequest tmuxStep ([] : TmuxWorld)
        ⟨"POST", "/sessions", 1, some (.pdict [("name", .pint 123)])⟩).value =
      .response (jsonResponse 200 (.jobj [("ok", .jbool true), ("name", .jstr "123"),
                                          ("created", .jbool true)])) ∧
     (handleRequest tmuxStep ([] : TmuxWorld)
        ⟨"POST", "/sessions", 1, some (.pdict [("name", .pint 123)])⟩).trace =
      [hasCmd "123", newCmd "123"]) ∧
    ((handleRequest tmuxStep ([] : TmuxWorld)
        ⟨"POST", "/sessions", 1, some (.pdict [("name", .pnone)])⟩).value =
      .response (jsonResponse 200 (.jobj [("ok", .jbool true), ("name", .jstr "None"),
                                          ("created", .jbool true)])) ∧
     (handleRequest tmuxStep ([] : TmuxWorld)
        ⟨"POST", "/sessions", 1, some (.pdict [("name", .pnone)])⟩).trace =
      [hasCmd "None", newCmd "None"]) := by
  refine ⟨?_, ?_, ⟨?_, ?_⟩, ⟨?_, ?_⟩⟩
  · intro σ ext st target cl
    exact do_POST_name_coerce σ ext st target cl _ _ (by decide)
  · intro σ ext st target cl
    exact do_POST_name_coerce σ ext st target cl _ _ (by decide)
  · decide
  · decide
  · decide
  · decide

/-! ## Claim C10 -/

/-- Claim C10 (confirmed): parsing external list output, a line with fewer
than three tab-separated fields is silently skipped (`list_sessions`
returns exactly the per-line `filterMap`); a `windows` field that is not
all digits is reported as `0`; and `attached` is reported `true` iff the
third field is exactly the string `"1"`. -/
theorem c10_list_parsing :
    (∀ (σ : Type) (ext : ExtOracle σ) (st : σ) (out : String),
      (ext st lsCmd).1 = some out →
      (list_sessions ext st).value = (pySplitlines (pyStrip out)).filterMap parseLine) ∧
    (∀ line : String, (pySplitChar line '\t').length < 3 → parseLine line = none) ∧
    (∀ line : String, 3 ≤ (pySplitChar line '\t').length →
      pyIsdigit ((pySplitChar line '\t').getD 1 "") = false →
      ∃ s : Session, parseLine line = some s ∧ s.windows = 0) ∧
    (∀ (line : String) (s : Session), parseLine line = some s →
      (s.attached = true ↔ (pySplitChar line '\t').getD 2 "" = "1")) := by
  refine ⟨?_, ?_, ?_, ?_⟩
  · intro σ ext st out h
    simp [list_sessions, h]
  · intro line h
    simp [parseLine, h]
  · intro line h3 hdig
    have hlt : ¬ (pySplitChar line '\t').length < 3 := by omega
    have hdig2 : pyIsdigit ((pySplitChar line '\t')[1]?.getD "") = false := by
      simpa [List.getD] using hdig
    refine ⟨⟨(pySplitChar line '\t').getD 0 "", 0,
      (pySplitChar line '\t').getD 2 "" == "1"⟩, ?_, rfl⟩
    simp [parseLine, hlt, hdig, hdig2]
  · intro line s h
    unfold parseLine at h
    dsimp only at h
    split at h
    · exact Option.noConfusion h
    · injection h with h
      subst h
      simp

/-- Witness for `c10_list_parsing`: a two-field line is skipped, a
non-numeric window count reads as `0`, and an attach count of `"2"` is
reported as not attached. -/
theorem c10_witness :
    (list_sessions (fun st _ => (some "a\t1\t0\nb\t2", st)) ()).value =
      (pySplitlines (pyStrip "a\t1\t0\nb\t2")).filterMap parseLine ∧
    parseLine "a\tb" = none ∧
    (∃ s : Session, parseLine "x\t2b\t1" = some s ∧ s.windows = 0) ∧
    ((⟨"x", 3, false⟩ : Session).attached = true ↔
      (pySplitChar "x\t3\t2" '\t').getD 2 "" = "1") :=
  ⟨c10_list_parsing.1 Unit (fun st _ => (some "a\t1\t0\nb\t2", st)) () "a\t1\t0\nb\t2" rfl,
   c10_list_parsing.2.1 "a\tb" (by decide),
   c10_list_parsing.2.2.1 "x\t2b\t1" (by decide) (by decide),
   c10_list_parsing.2.2.2 "x\t3\t2" ⟨"x", 3, false⟩ (by decide)⟩
